import Mathlib

/-!
# Verification of the Sales-insights pipeline

A shallow embedding of `Sales_insights/main.py`: tables are lists of rows,
a row is an association list from column name to value, numeric values are
rationals (pandas floats carry no claim-relevant rounding here), dates are
year/month/day triples.  Each pandas statement of `clean_data`,
`add_time_features`, `get_top_products`, `get_monthly_trends` and
`get_basic_stats` is translated step by step; `raise` becomes `Except.error`.
Pandas `NaN`/`NaT` cells are the `Value.null` constructor; the `NaN` mean of
an empty series is the absent value `none` (ℚ has no NaN).
-/

namespace SalesInsights

/-- A calendar date, as produced by `pd.to_datetime`. -/
structure DateYMD where
  year : Nat
  month : Nat
  day : Nat
deriving DecidableEq

/-- A cell of a table: number, string, date, or missing (`NaN`/`None`/`NaT`). -/
inductive Value where
  | num (q : ℚ)
  | str (s : String)
  | date (d : DateYMD)
  | null
deriving DecidableEq

/-- A row: mapping from column name to value (first binding wins). -/
abbrev Row := List (String × Value)

/-- A dataframe: a column list and a list of rows. -/
structure DataFrame where
  cols : List String
  rows : List Row
deriving DecidableEq

/-- Read a cell; a column absent from the row reads as missing. -/
def getVal (r : Row) (c : String) : Value :=
  (r.lookup c).getD Value.null

/-- Write a cell (new binding shadows any old one). -/
def setVal (r : Row) (c : String) (v : Value) : Row :=
  (c, v) :: r

/-! ## Rational arithmetic

`Rat.add`, `Rat.mul` and `Rat.inv` are `@[irreducible]`, which blocks
evaluation of concrete tables by `decide`.  The pipeline therefore computes
with the equivalent `mkRat` forms below; the bridge lemmas prove them equal
to the standard operations, and every theorem is stated with the standard
operations. -/

/-- Rational multiplication in `mkRat` form. -/
def qmul (a b : ℚ) : ℚ := mkRat (a.num * b.num) (a.den * b.den)

/-- Rational addition in `mkRat` form. -/
def qadd (a b : ℚ) : ℚ := mkRat (a.num * b.den + b.num * a.den) (a.den * b.den)

/-- Division of a rational by a natural number, in `mkRat` form. -/
def qdivNat (a : ℚ) (n : Nat) : ℚ := mkRat a.num (a.den * n)

/-- Sum of a list of rationals, via `qadd`. -/
def qsum (l : List ℚ) : ℚ := l.foldr qadd 0

theorem qmul_eq (a b : ℚ) : qmul a b = a * b := by
  unfold qmul
  rw [Rat.mkRat_eq_div]
  push_cast
  rw [← div_mul_div_comm, Rat.num_div_den, Rat.num_div_den]

theorem qadd_eq (a b : ℚ) : qadd a b = a + b := by
  have ha : ((a.den : ℚ)) ≠ 0 := by exact_mod_cast a.den_nz
  have hb : ((b.den : ℚ)) ≠ 0 := by exact_mod_cast b.den_nz
  unfold qadd
  rw [Rat.mkRat_eq_div]
  conv_rhs => rw [← Rat.num_div_den a, ← Rat.num_div_den b]
  rw [div_add_div _ _ ha hb]
  push_cast
  ring_nf

theorem qdivNat_eq (a : ℚ) (n : Nat) : qdivNat a n = a / n := by
  unfold qdivNat
  rw [Rat.mkRat_eq_div]
  push_cast
  rw [← div_div, Rat.num_div_den]

theorem qsum_eq (l : List ℚ) : qsum l = l.sum := by
  induction l with
  | nil => rfl
  | cons x l ih =>
    rw [List.sum_cons, ← ih]
    exact qadd_eq x (qsum l)

/-! ## Value coercions (`pd.to_numeric` / `pd.to_datetime`, `errors="coerce"`) -/

/-- Numeric value of a decimal digit character. -/
def digitVal (c : Char) : Option Nat :=
  if ('0' ≤ c ∧ c ≤ '9') then some (c.toNat - ('0').toNat) else none

/-- Parse a nonempty all-digit character list as a natural number. -/
def parseNatDigits (l : List Char) : Option Nat :=
  if l.isEmpty then none
  else l.foldl (fun acc c =>
    match acc, digitVal c with
    | some n, some d => some (n * 10 + d)
    | _, _ => none) (some 0)

/-- Split a character list on a separator character. -/
def splitOnChar (sep : Char) : List Char → List (List Char)
  | [] => [[]]
  | c :: l =>
    if c = sep then [] :: splitOnChar sep l
    else
      match splitOnChar sep l with
      | [] => [[c]]
      | h :: t => (c :: h) :: t

/-- Parse an unsigned decimal numeral, with an optional fractional part. -/
def parseUnsigned (l : List Char) : Option ℚ :=
  match splitOnChar ('.') l with
  | [ip] => (parseNatDigits ip).map (fun n => (n : ℚ))
  | [ip, fp] =>
    match parseNatDigits ip, parseNatDigits fp with
    | some i, some f => some (qadd (i : ℚ) (qdivNat (f : ℚ) (10 ^ fp.length)))
    | _, _ => none
  | _ => none

/-- Parse a decimal numeral with an optional leading minus sign. -/
def parseNum (s : String) : Option ℚ :=
  match s.data with
  | '-' :: rest => (parseUnsigned rest).map (fun q => -q)
  | l => parseUnsigned l

/-- `pd.to_numeric(·, errors="coerce").fillna(0)` on one cell: numbers kept,
parseable strings parsed, everything else degraded to `0`. -/
def toNumOrZero : Value → ℚ
  | Value.num q => q
  | Value.str s => (parseNum s).getD 0
  | Value.date _ => 0
  | Value.null => 0

/-- The numeric content of a cell already known to be numeric (`0` otherwise). -/
def numOf : Value → ℚ
  | Value.num q => q
  | _ => 0

/-- The string content of a cell already known to be a string (empty otherwise). -/
def strOf : Value → String
  | Value.str s => s
  | _ => ""

/-- Parse an ISO `YYYY-MM-DD` date string. -/
def parseDateChars (l : List Char) : Option DateYMD :=
  match splitOnChar ('-') l with
  | [y, m, d] =>
    match parseNatDigits y, parseNatDigits m, parseNatDigits d with
    | some yn, some mn, some dn =>
      if y.length = 4 ∧ 1 ≤ mn ∧ mn ≤ 12 ∧ 1 ≤ dn ∧ dn ≤ 31 then
        some ⟨yn, mn, dn⟩
      else none
    | _, _, _ => none
  | _ => none

/-- `pd.to_datetime(·, errors="coerce")` on one cell: dates kept, parseable
date strings parsed, everything else becomes `NaT` (`none`). -/
def toDateOrNone : Value → Option DateYMD
  | Value.date d => some d
  | Value.str s => parseDateChars s.data
  | _ => none

/-- Whether a cell holds a date. -/
def isDate : Value → Bool
  | Value.date _ => true
  | _ => false

/-- The date content of a cell known to hold a date. -/
def dateOf : Value → DateYMD
  | Value.date d => d
  | _ => ⟨0, 0, 0⟩

/-! ## Configuration constants (module-level constants of the source) -/

def DATE_COLUMN : String := "ORDERDATE"
def PRODUCT_COLUMN : String := "PRODUCTLINE"
def QTY_COLUMN : String := "QUANTITYORDERED"
def PRICE_COLUMN : String := "PRICEEACH"
def SALES_COLUMN : String := "SALES"
def YEARMONTH_COLUMN : String := "YearMonth"

/-! ## Cleaner (`clean_data`), one definition per pandas statement -/

/-- Python `str.strip()` on a character list. -/
def stripChars (l : List Char) : List Char :=
  ((l.dropWhile Char.isWhitespace).reverse.dropWhile Char.isWhitespace).reverse

/-- Python `str.strip()` on a string. -/
def stripName (s : String) : String :=
  ⟨stripChars s.data⟩

/-- `df.columns = [c.strip() for c in df.columns]`. -/
def trimCols (df : DataFrame) : DataFrame :=
  { cols := df.cols.map stripName
    rows := df.rows.map (fun r => r.map (fun p => (stripName p.1, p.2))) }

/-- `df.dropna(how="all")`: drop rows whose every cell is missing. -/
def dropAllNull (df : DataFrame) : DataFrame :=
  { df with rows := df.rows.filter (fun r => !(df.cols.all (fun c => getVal r c == Value.null))) }

/-- Rewrite one column of every row through `f`. -/
def mapCol (df : DataFrame) (c : String) (f : Value → Value) : DataFrame :=
  { df with rows := df.rows.map (fun r => setVal r c (f (getVal r c))) }

/-- `df[QTY] = pd.to_numeric(df[QTY], errors="coerce").fillna(0)` (guarded). -/
def coerceQty (df : DataFrame) : DataFrame :=
  if QTY_COLUMN ∈ df.cols then
    mapCol df QTY_COLUMN (fun v => Value.num (toNumOrZero v))
  else df

/-- `df[PRICE] = pd.to_numeric(df[PRICE], errors="coerce").fillna(0)` (guarded). -/
def coercePrice (df : DataFrame) : DataFrame :=
  if PRICE_COLUMN ∈ df.cols then
    mapCol df PRICE_COLUMN (fun v => Value.num (toNumOrZero v))
  else df

/-- `df[DATE] = pd.to_datetime(df[DATE], errors="coerce"); df = df[df[DATE].notna()]`. -/
def coerceDate (df : DataFrame) : DataFrame :=
  if DATE_COLUMN ∈ df.cols then
    let dm := mapCol df DATE_COLUMN (fun v =>
      match toDateOrNone v with
      | some d => Value.date d
      | none => Value.null)
    { dm with rows := dm.rows.filter (fun r => !(getVal r DATE_COLUMN == Value.null)) }
  else df

/-- `if SALES not in df.columns and all(...): df[SALES] = df[QTY] * df[PRICE]`. -/
def deriveSales (df : DataFrame) : DataFrame :=
  if SALES_COLUMN ∉ df.cols ∧ QTY_COLUMN ∈ df.cols ∧ PRICE_COLUMN ∈ df.cols then
    { cols := df.cols ++ [SALES_COLUMN]
      rows := df.rows.map (fun r =>
        setVal r SALES_COLUMN
          (Value.num (qmul (numOf (getVal r QTY_COLUMN)) (numOf (getVal r PRICE_COLUMN))))) }
  else df

/-- `df[SALES] = pd.to_numeric(...).fillna(0); df = df[df[SALES] > 0]` (guarded). -/
def filterSales (df : DataFrame) : DataFrame :=
  if SALES_COLUMN ∈ df.cols then
    let sm := mapCol df SALES_COLUMN (fun v => Value.num (toNumOrZero v))
    { sm with rows := sm.rows.filter (fun r => decide ((0 : ℚ) < numOf (getVal r SALES_COLUMN))) }
  else df

/-- `clean_data`: the six cleaning statements of the source, in source order.
Total — like the source it raises nothing, degrading malformed cells instead. -/
def clean_data (df : DataFrame) : DataFrame :=
  filterSales (deriveSales (coerceDate (coercePrice (coerceQty (dropAllNull (trimCols df))))))

/-! ## Feature deriver (`add_time_features`) -/

/-- Zero-pad a natural number to two digits (month formatting of a period string). -/
def pad2 (n : Nat) : String :=
  if n < 10 then "0" ++ toString n else toString n

/-- Zero-pad a natural number to four digits (year formatting of a period string). -/
def pad4 (n : Nat) : String :=
  if n < 10 then "000" ++ toString n
  else if n < 100 then "00" ++ toString n
  else if n < 1000 then "0" ++ toString n
  else toString n

/-- `str(ts.to_period("M"))`: the `"YYYY-MM"` bucket of a date. -/
def yearMonthStr (d : DateYMD) : String :=
  pad4 d.year ++ "-" ++ pad2 d.month

/-- `add_time_features`: requires the date column (else `KeyError`); the `.dt`
accessor additionally requires every cell of that column to be datetime. -/
def add_time_features (df : DataFrame) : Except String DataFrame :=
  if DATE_COLUMN ∉ df.cols then
    Except.error (DATE_COLUMN ++ " column is required for time analysis")
  else if !(df.rows.all (fun r => isDate (getVal r DATE_COLUMN))) then
    Except.error ("dt accessor requires datetime values")
  else
    Except.ok
      { cols := df.cols ++ [("Year"), ("Month"), YEARMONTH_COLUMN]
        rows := df.rows.map (fun r =>
          let d := dateOf (getVal r DATE_COLUMN)
          setVal (setVal (setVal r ("Year") (Value.num (d.year : ℚ)))
            ("Month") (Value.num (d.month : ℚ)))
            YEARMONTH_COLUMN (Value.str (yearMonthStr d))) }

/-! ## Aggregator -/

/-- The series of one column, top to bottom. -/
def colVals (df : DataFrame) (c : String) : List Value :=
  df.rows.map (fun r => getVal r c)

/-- Deduplicate, keeping first occurrences in order. -/
def dedupFirst : List Value → List Value
  | [] => []
  | v :: l => v :: (dedupFirst l).filter (fun x => !(x == v))

/-- The distinct group keys of a `groupby` on column `c`: distinct non-missing
values of the column (pandas drops `NaN` keys). -/
def groupKeys (df : DataFrame) (c : String) : List Value :=
  dedupFirst ((colVals df c).filter (fun v => !(v == Value.null)))

/-- `df.groupby(c)[SALES].sum()` at key `k`: the summed revenue of the rows
whose `c` cell equals `k`. -/
def groupSum (df : DataFrame) (c : String) (k : Value) : ℚ :=
  qsum ((df.rows.filter (fun r => getVal r c == k)).map
    (fun r => numOf (getVal r SALES_COLUMN)))

/-- Sort order of `sort_values(ascending=False)` on summed revenue. -/
def descBySnd (a b : Value × ℚ) : Prop := b.2 ≤ a.2

instance : DecidableRel descBySnd :=
  fun a b => inferInstanceAs (Decidable (b.2 ≤ a.2))

instance : IsTotal (Value × ℚ) descBySnd :=
  ⟨fun a b => le_total b.2 a.2⟩

instance : IsTrans (Value × ℚ) descBySnd :=
  ⟨fun _ _ _ h1 h2 => le_trans h2 h1⟩

/-- Sort order of `sort_values("YearMonth")`: ascending by bucket string. -/
def ascByBucket (a b : Value × ℚ) : Prop := strOf a.1 ≤ strOf b.1

instance : DecidableRel ascByBucket :=
  fun a b => inferInstanceAs (Decidable (strOf a.1 ≤ strOf b.1))

instance : IsTotal (Value × ℚ) ascByBucket :=
  ⟨fun a b => le_total (strOf a.1) (strOf b.1)⟩

instance : IsTrans (Value × ℚ) ascByBucket :=
  ⟨fun _ _ _ h1 h2 => le_trans h1 h2⟩

/-- `get_top_products`: `KeyError` when the product column is absent; selecting
`[SALES]` from the groupby is a `KeyError` when the revenue column is absent;
otherwise group, sum, sort descending by sum, take the first `top_n`.  The
order among groups with equal sums is unspecified in pandas (`sort_values`
defaults to an unstable quicksort); here keys enter the sort in first-seen
order — no theorem below depends on tie order. -/
def get_top_products (df : DataFrame) (top_n : Nat) : Except String (List (Value × ℚ)) :=
  if PRODUCT_COLUMN ∉ df.cols then
    Except.error (PRODUCT_COLUMN ++ " column is required for product analysis")
  else if SALES_COLUMN ∉ df.cols then
    Except.error ("Column not found: " ++ SALES_COLUMN)
  else
    Except.ok ((List.insertionSort descBySnd
      ((groupKeys df PRODUCT_COLUMN).map
        (fun k => (k, groupSum df PRODUCT_COLUMN k)))).take top_n)

/-- `get_monthly_trends`: `KeyError` when the bucket column is absent; selecting
`[SALES]` from the groupby is a `KeyError` when the revenue column is absent;
otherwise group, sum, sort ascending by bucket. -/
def get_monthly_trends (df : DataFrame) : Except String (List (Value × ℚ)) :=
  if YEARMONTH_COLUMN ∉ df.cols then
    Except.error ("YearMonth column is missing. Run add_time_features first.")
  else if SALES_COLUMN ∉ df.cols then
    Except.error ("Column not found: " ++ SALES_COLUMN)
  else
    Except.ok (List.insertionSort ascByBucket
      ((groupKeys df YEARMONTH_COLUMN).map
        (fun k => (k, groupSum df YEARMONTH_COLUMN k))))

/-- The summary-statistics record of `get_basic_stats`.  The `NaN` that
`mean()` yields on an empty series is the absent value `none`. -/
structure Stats where
  total_rows : Nat
  total_revenue : ℚ
  avg_order_value : Option ℚ
  unique_products : Option Nat
deriving DecidableEq

/-- `get_basic_stats`: indexing `df[SALES]` is a `KeyError` when the revenue
column is absent; otherwise count, sum, mean (NaN ↦ `none` on zero rows) and,
when the product column is present, the distinct non-missing product count. -/
def get_basic_stats (df : DataFrame) : Except String Stats :=
  if SALES_COLUMN ∉ df.cols then
    Except.error ("Column not found: " ++ SALES_COLUMN)
  else
    Except.ok
      { total_rows := df.rows.length
        total_revenue := qsum (df.rows.map (fun r => numOf (getVal r SALES_COLUMN)))
        avg_order_value :=
          if df.rows.length = 0 then none
          else some (qdivNat (qsum (df.rows.map (fun r => numOf (getVal r SALES_COLUMN))))
            df.rows.length)
        unique_products :=
          if PRODUCT_COLUMN ∈ df.cols then
            some (dedupFirst ((colVals df PRODUCT_COLUMN).filter
              (fun v => !(v == Value.null)))).length
          else none }

/-! ## Loader dispatch (`load_data`), the extension test only -/

/-- Python `str.lower()` on one ASCII character. -/
def lowerChar (c : Char) : Char :=
  if ('A' ≤ c ∧ c ≤ 'Z') then Char.ofNat (c.toNat + 32) else c

/-- Python `str.lower()` on a path. -/
def lowerStr (s : List Char) : List Char :=
  s.map lowerChar

/-- The parser `load_data` hands the file to. -/
inductive LoadFormat where
  | csv
  | excel
deriving DecidableEq

def csvExt : List Char := (".csv").data
def xlsxExt : List Char := (".xlsx").data
def xlsExt : List Char := (".xls").data

/-- The extension dispatch of `load_data`: `path.lower().endswith(...)`. -/
def dispatchFormat (path : List Char) : Except String LoadFormat :=
  if csvExt.isSuffixOf (lowerStr path) then Except.ok LoadFormat.csv
  else if xlsxExt.isSuffixOf (lowerStr path) || xlsExt.isSuffixOf (lowerStr path) then
    Except.ok LoadFormat.excel
  else Except.error ("Only CSV or Excel files supported.")

/-! ## Concrete tables used by witnesses and counterexamples -/

/-- The end-to-end scenario table: `read_csv` keeps `QUANTITYORDERED` textual
because of the unparseable `"bad"`, while `PRICEEACH` is inferred numeric. -/
def rawC6 : DataFrame :=
  { cols := [DATE_COLUMN, PRODUCT_COLUMN, QTY_COLUMN, PRICE_COLUMN]
    rows :=
      [ [(DATE_COLUMN, Value.str ("2003-01-06")), (PRODUCT_COLUMN, Value.str ("Motorcycles")),
         (QTY_COLUMN, Value.str ("30")), (PRICE_COLUMN, Value.num 100)]
      , [(DATE_COLUMN, Value.str ("2003-01-09")), (PRODUCT_COLUMN, Value.str ("Classic Cars")),
         (QTY_COLUMN, Value.str ("10")), (PRICE_COLUMN, Value.num 50)]
      , [(DATE_COLUMN, Value.str ("2003-02-01")), (PRODUCT_COLUMN, Value.str ("Motorcycles")),
         (QTY_COLUMN, Value.str ("bad")), (PRICE_COLUMN, Value.num 20)] ] }

/-- A table with no revenue, quantity or price column: its row survives
cleaning with no `SALES` value at all. -/
def noRevenueDF : DataFrame :=
  { cols := [("A")], rows := [[(("A"), Value.str ("x"))]] }

/-- A one-row table with a pre-existing textual revenue column. -/
def salesOnlyDF : DataFrame :=
  { cols := [SALES_COLUMN], rows := [[(SALES_COLUMN, Value.str ("5"))]] }

/-- The row of `salesOnlyDF` after cleaning. -/
def salesOnlyRow : Row :=
  [(SALES_COLUMN, Value.num 5), (SALES_COLUMN, Value.str ("5"))]

/-- A two-column table whose revenue is derived from quantity × price. -/
def qtyPriceDF : DataFrame :=
  { cols := [QTY_COLUMN, PRICE_COLUMN]
    rows := [[(QTY_COLUMN, Value.str ("30")), (PRICE_COLUMN, Value.num 100)]] }

/-- The row of `qtyPriceDF` after cleaning. -/
def qtyPriceRow : Row :=
  [(SALES_COLUMN, Value.num 3000), (SALES_COLUMN, Value.num 3000),
   (PRICE_COLUMN, Value.num 100), (QTY_COLUMN, Value.num 30),
   (QTY_COLUMN, Value.str ("30")), (PRICE_COLUMN, Value.num 100)]

/-- An empty table that still has the revenue column. -/
def emptySalesDF : DataFrame :=
  { cols := [SALES_COLUMN, PRODUCT_COLUMN], rows := [] }

/-- A table with quantity but no price and no revenue: revenue cannot be
established. -/
def noPriceDF : DataFrame :=
  { cols := [QTY_COLUMN, PRODUCT_COLUMN, YEARMONTH_COLUMN]
    rows := [[(QTY_COLUMN, Value.num 3), (PRODUCT_COLUMN, Value.str ("P")),
              (YEARMONTH_COLUMN, Value.str ("2003-01"))]] }

/-- A one-row featured-style table used to instantiate aggregation theorems. -/
def featuredDF : DataFrame :=
  { cols := [PRODUCT_COLUMN, SALES_COLUMN, YEARMONTH_COLUMN, DATE_COLUMN]
    rows := [[(PRODUCT_COLUMN, Value.str ("Motorcycles")), (SALES_COLUMN, Value.num 7),
              (YEARMONTH_COLUMN, Value.str ("2003-01")),
              (DATE_COLUMN, Value.date ⟨2003, 1, 6⟩)]] }

/-! ## Basic lemmas about cells and steps -/

theorem getVal_setVal_self (r : Row) (c : String) (v : Value) :
    getVal (setVal r c v) c = v := by
  simp [getVal, setVal]

theorem getVal_setVal_ne (r : Row) {c c' : String} (v : Value) (h : c' ≠ c) :
    getVal (setVal r c v) c' = getVal r c' := by
  have hb : (c' == c) = false := beq_eq_false_iff_ne.2 h
  simp [getVal, setVal, List.lookup, hb]

theorem mem_rows_mapCol {df : DataFrame} {c : String} {f : Value → Value} {r : Row}
    (h : r ∈ (mapCol df c f).rows) :
    ∃ r₀ ∈ df.rows, r = setVal r₀ c (f (getVal r₀ c)) := by
  obtain ⟨r₀, hr₀, hh⟩ := List.mem_map.1 h
  exact ⟨r₀, hr₀, hh.symm⟩

theorem cols_mapCol (df : DataFrame) (c : String) (f : Value → Value) :
    (mapCol df c f).cols = df.cols := rfl

theorem cols_dropAllNull (df : DataFrame) : (dropAllNull df).cols = df.cols := rfl

theorem cols_trimCols (df : DataFrame) : (trimCols df).cols = df.cols.map stripName := rfl

theorem cols_coerceQty (df : DataFrame) : (coerceQty df).cols = df.cols := by
  unfold coerceQty
  split <;> rfl

theorem cols_coercePrice (df : DataFrame) : (coercePrice df).cols = df.cols := by
  unfold coercePrice
  split <;> rfl

theorem cols_coerceDate (df : DataFrame) : (coerceDate df).cols = df.cols := by
  unfold coerceDate
  split <;> rfl

theorem cols_filterSales (df : DataFrame) : (filterSales df).cols = df.cols := by
  unfold filterSales
  split <;> rfl

theorem cols_deriveSales_pos {df : DataFrame}
    (h : SALES_COLUMN ∉ df.cols ∧ QTY_COLUMN ∈ df.cols ∧ PRICE_COLUMN ∈ df.cols) :
    (deriveSales df).cols = df.cols ++ [SALES_COLUMN] := by
  unfold deriveSales
  rw [if_pos h]

theorem cols_deriveSales_neg {df : DataFrame}
    (h : ¬(SALES_COLUMN ∉ df.cols ∧ QTY_COLUMN ∈ df.cols ∧ PRICE_COLUMN ∈ df.cols)) :
    (deriveSales df).cols = df.cols := by
  unfold deriveSales
  rw [if_neg h]

/-- Rows surviving `filterSales` on a table that has the revenue column carry
a numeric, strictly positive revenue value. -/
theorem filterSales_pos {df : DataFrame} (h : SALES_COLUMN ∈ df.cols) :
    ∀ r ∈ (filterSales df).rows, ∃ q : ℚ, getVal r SALES_COLUMN = Value.num q ∧ 0 < q := by
  unfold filterSales
  rw [if_pos h]
  intro r hr
  have hp := List.of_mem_filter hr
  obtain ⟨r₀, hr₀, rfl⟩ := mem_rows_mapCol (List.mem_of_mem_filter hr)
  refine ⟨toNumOrZero (getVal r₀ SALES_COLUMN), getVal_setVal_self .., ?_⟩
  rw [getVal_setVal_self] at hp
  simpa [numOf] using of_decide_eq_true hp

/-! ## Column-predicate transfer through the cleaning steps -/

theorem colPred_coerceQty {df : DataFrame} {c : String} (P : Value → Prop)
    (h : c ≠ QTY_COLUMN) (hdf : ∀ r ∈ df.rows, P (getVal r c)) :
    ∀ r ∈ (coerceQty df).rows, P (getVal r c) := by
  unfold coerceQty
  split
  · intro r hr
    obtain ⟨r₀, hr₀, rfl⟩ := mem_rows_mapCol hr
    rw [getVal_setVal_ne _ _ h]
    exact hdf r₀ hr₀
  · exact hdf

theorem colPred_coercePrice {df : DataFrame} {c : String} (P : Value → Prop)
    (h : c ≠ PRICE_COLUMN) (hdf : ∀ r ∈ df.rows, P (getVal r c)) :
    ∀ r ∈ (coercePrice df).rows, P (getVal r c) := by
  unfold coercePrice
  split
  · intro r hr
    obtain ⟨r₀, hr₀, rfl⟩ := mem_rows_mapCol hr
    rw [getVal_setVal_ne _ _ h]
    exact hdf r₀ hr₀
  · exact hdf

theorem colPred_coerceDate {df : DataFrame} {c : String} (P : Value → Prop)
    (h : c ≠ DATE_COLUMN) (hdf : ∀ r ∈ df.rows, P (getVal r c)) :
    ∀ r ∈ (coerceDate df).rows, P (getVal r c) := by
  unfold coerceDate
  split
  · intro r hr
    obtain ⟨r₀, hr₀, rfl⟩ := mem_rows_mapCol (List.mem_of_mem_filter hr)
    rw [getVal_setVal_ne _ _ h]
    exact hdf r₀ hr₀
  · exact hdf

theorem colPred_deriveSales {df : DataFrame} {c : String} (P : Value → Prop)
    (h : c ≠ SALES_COLUMN) (hdf : ∀ r ∈ df.rows, P (getVal r c)) :
    ∀ r ∈ (deriveSales df).rows, P (getVal r c) := by
  unfold deriveSales
  split
  · intro r hr
    obtain ⟨r₀, hr₀, rfl⟩ := List.mem_map.1 hr
    rw [getVal_setVal_ne _ _ h]
    exact hdf r₀ hr₀
  · exact hdf

theorem colPred_filterSales {df : DataFrame} {c : String} (P : Value → Prop)
    (h : c ≠ SALES_COLUMN) (hdf : ∀ r ∈ df.rows, P (getVal r c)) :
    ∀ r ∈ (filterSales df).rows, P (getVal r c) := by
  unfold filterSales
  split
  · intro r hr
    obtain ⟨r₀, hr₀, rfl⟩ := mem_rows_mapCol (List.mem_of_mem_filter hr)
    rw [getVal_setVal_ne _ _ h]
    exact hdf r₀ hr₀
  · exact hdf

/-- `coerceQty` leaves every row with a numeric quantity cell. -/
theorem coerceQty_num {df : DataFrame} (h : QTY_COLUMN ∈ df.cols) :
    ∀ r ∈ (coerceQty df).rows, ∃ q : ℚ, getVal r QTY_COLUMN = Value.num q := by
  unfold coerceQty
  rw [if_pos h]
  intro r hr
  obtain ⟨r₀, hr₀, rfl⟩ := mem_rows_mapCol hr
  exact ⟨_, getVal_setVal_self ..⟩

/-- `coercePrice` leaves every row with a numeric price cell. -/
theorem coercePrice_num {df : DataFrame} (h : PRICE_COLUMN ∈ df.cols) :
    ∀ r ∈ (coercePrice df).rows, ∃ p : ℚ, getVal r PRICE_COLUMN = Value.num p := by
  unfold coercePrice
  rw [if_pos h]
  intro r hr
  obtain ⟨r₀, hr₀, rfl⟩ := mem_rows_mapCol hr
  exact ⟨_, getVal_setVal_self ..⟩

/-- `coerceDate` leaves every surviving row with a genuine date cell: rows
whose date failed to parse are removed by its filter. -/
theorem coerceDate_date {df : DataFrame} (h : DATE_COLUMN ∈ df.cols) :
    ∀ r ∈ (coerceDate df).rows, ∃ d : DateYMD, getVal r DATE_COLUMN = Value.date d := by
  unfold coerceDate
  rw [if_pos h]
  intro r hr
  have hp := List.of_mem_filter hr
  obtain ⟨r₀, hr₀, rfl⟩ := mem_rows_mapCol (List.mem_of_mem_filter hr)
  rw [getVal_setVal_self] at hp ⊢
  cases htd : toDateOrNone (getVal r₀ DATE_COLUMN) with
  | some d => exact ⟨d, rfl⟩
  | none =>
    rw [htd] at hp
    simp at hp

/-- When revenue is derived, every row ends with `SALES = QTY × PRICE`. -/
theorem deriveSales_prod {df : DataFrame}
    (hs : SALES_COLUMN ∉ df.cols) (hq : QTY_COLUMN ∈ df.cols) (hp : PRICE_COLUMN ∈ df.cols)
    (hQ : ∀ r ∈ df.rows, ∃ q : ℚ, getVal r QTY_COLUMN = Value.num q)
    (hP : ∀ r ∈ df.rows, ∃ p : ℚ, getVal r PRICE_COLUMN = Value.num p) :
    ∀ r ∈ (deriveSales df).rows, ∃ q p : ℚ,
      getVal r QTY_COLUMN = Value.num q ∧ getVal r PRICE_COLUMN = Value.num p ∧
      getVal r SALES_COLUMN = Value.num (q * p) := by
  unfold deriveSales
  rw [if_pos ⟨hs, hq, hp⟩]
  intro r hr
  obtain ⟨r₀, hr₀, rfl⟩ := List.mem_map.1 hr
  obtain ⟨q, hq'⟩ := hQ r₀ hr₀
  obtain ⟨p, hp'⟩ := hP r₀ hr₀
  refine ⟨q, p, ?_, ?_, ?_⟩
  · rw [getVal_setVal_ne _ _ (show QTY_COLUMN ≠ SALES_COLUMN by decide), hq']
  · rw [getVal_setVal_ne _ _ (show PRICE_COLUMN ≠ SALES_COLUMN by decide), hp']
  · rw [getVal_setVal_self, hq', hp']
    simp [numOf, qmul_eq]

/-- `filterSales` re-coerces an already-numeric revenue cell to itself, so the
`SALES = QTY × PRICE` relation survives it. -/
theorem filterSales_prod {df : DataFrame}
    (h : ∀ r ∈ df.rows, ∃ q p : ℚ,
      getVal r QTY_COLUMN = Value.num q ∧ getVal r PRICE_COLUMN = Value.num p ∧
      getVal r SALES_COLUMN = Value.num (q * p)) :
    ∀ r ∈ (filterSales df).rows, ∃ q p : ℚ,
      getVal r QTY_COLUMN = Value.num q ∧ getVal r PRICE_COLUMN = Value.num p ∧
      getVal r SALES_COLUMN = Value.num (q * p) := by
  unfold filterSales
  split
  · intro r hr
    obtain ⟨r₀, hr₀, rfl⟩ := mem_rows_mapCol (List.mem_of_mem_filter hr)
    obtain ⟨q, p, h1, h2, h3⟩ := h r₀ hr₀
    refine ⟨q, p, ?_, ?_, ?_⟩
    · rw [getVal_setVal_ne _ _ (show QTY_COLUMN ≠ SALES_COLUMN by decide)]
      exact h1
    · rw [getVal_setVal_ne _ _ (show PRICE_COLUMN ≠ SALES_COLUMN by decide)]
      exact h2
    · rw [getVal_setVal_self, h3]
      rfl
  · exact h

/-! ## Claim C1 -/

/-- **C1, counterexample**: on a raw table with no revenue, quantity or price
column, `clean_data` keeps the row, which then has no `SALES` value at all —
so not every surviving row has revenue strictly greater than zero. -/
theorem clean_sales_pos_counterexample :
    ∃ r ∈ (clean_data noRevenueDF).rows,
      getVal r SALES_COLUMN = Value.null ∧ ¬((0 : ℚ) < numOf (getVal r SALES_COLUMN)) := by
  decide

/-- **C1 (amended)**: for every raw table for which cleaning establishes the
revenue column (`SALES` is among the cleaned table's columns), every surviving
row carries a numeric revenue value strictly greater than zero. -/
theorem clean_sales_pos (df : DataFrame)
    (h : SALES_COLUMN ∈ (clean_data df).cols) :
    ∀ r ∈ (clean_data df).rows, ∃ q : ℚ, getVal r SALES_COLUMN = Value.num q ∧ 0 < q := by
  have h6 : SALES_COLUMN ∈
      (deriveSales (coerceDate (coercePrice (coerceQty (dropAllNull (trimCols df)))))).cols := by
    unfold clean_data at h
    rwa [cols_filterSales] at h
  unfold clean_data
  exact filterSales_pos h6

/-- **C1, witness**: the amended theorem applied to `salesOnlyDF`. -/
theorem clean_sales_pos_witness :
    ∃ q : ℚ, getVal salesOnlyRow SALES_COLUMN = Value.num q ∧ 0 < q :=
  clean_sales_pos salesOnlyDF (by decide) salesOnlyRow (by decide)

/-! ## Claim C2 -/

/-- **C2**: on a raw table with no revenue column (after name trimming) and
both quantity and price columns, `clean_data` creates the revenue column, and
every surviving row satisfies `SALES = QTY × PRICE` with both factors the
coerced (numeric) quantity and price cells. -/
theorem clean_revenue_derivation (df : DataFrame)
    (hs : SALES_COLUMN ∉ (trimCols df).cols)
    (hq : QTY_COLUMN ∈ (trimCols df).cols)
    (hp : PRICE_COLUMN ∈ (trimCols df).cols) :
    SALES_COLUMN ∈ (clean_data df).cols ∧
    ∀ r ∈ (clean_data df).rows, ∃ q p : ℚ,
      getVal r QTY_COLUMN = Value.num q ∧ getVal r PRICE_COLUMN = Value.num p ∧
      getVal r SALES_COLUMN = Value.num (q * p) := by
  have hs5 : SALES_COLUMN ∉
      (coerceDate (coercePrice (coerceQty (dropAllNull (trimCols df))))).cols := by
    rwa [cols_coerceDate, cols_coercePrice, cols_coerceQty, cols_dropAllNull]
  have hq5 : QTY_COLUMN ∈
      (coerceDate (coercePrice (coerceQty (dropAllNull (trimCols df))))).cols := by
    rwa [cols_coerceDate, cols_coercePrice, cols_coerceQty, cols_dropAllNull]
  have hp5 : PRICE_COLUMN ∈
      (coerceDate (coercePrice (coerceQty (dropAllNull (trimCols df))))).cols := by
    rwa [cols_coerceDate, cols_coercePrice, cols_coerceQty, cols_dropAllNull]
  constructor
  · unfold clean_data
    rw [cols_filterSales, cols_deriveSales_pos ⟨hs5, hq5, hp5⟩]
    simp
  · have hQ3 := coerceQty_num (show QTY_COLUMN ∈ (dropAllNull (trimCols df)).cols from hq)
    have hQ4 := colPred_coercePrice (fun v => ∃ q : ℚ, v = Value.num q) (show QTY_COLUMN ≠ PRICE_COLUMN by decide) hQ3
    have hQ5 := colPred_coerceDate (fun v => ∃ q : ℚ, v = Value.num q) (show QTY_COLUMN ≠ DATE_COLUMN by decide) hQ4
    have hP4 := coercePrice_num
      (show PRICE_COLUMN ∈ (coerceQty (dropAllNull (trimCols df))).cols by
        rwa [cols_coerceQty, cols_dropAllNull])
    have hP5 := colPred_coerceDate (fun v => ∃ p : ℚ, v = Value.num p) (show PRICE_COLUMN ≠ DATE_COLUMN by decide) hP4
    have h6 := deriveSales_prod hs5 hq5 hp5 hQ5 hP5
    have h7 := filterSales_prod h6
    exact h7

/-- **C2, witness**: the derivation theorem applied to `qtyPriceDF`. -/
theorem clean_revenue_derivation_witness :
    ∃ q p : ℚ, getVal qtyPriceRow QTY_COLUMN = Value.num q ∧
      getVal qtyPriceRow PRICE_COLUMN = Value.num p ∧
      getVal qtyPriceRow SALES_COLUMN = Value.num (q * p) :=
  (clean_revenue_derivation qtyPriceDF (by decide) (by decide) (by decide)).2
    qtyPriceRow (by decide)

/-! ## Claim C5 -/

/-- **C5**: on an empty table that has the revenue column, `get_basic_stats`
succeeds with row count `0`, total revenue `0`, and the average reported as
the no-data sentinel `none` (the embedding of the `NaN` mean) — not `0` and
not an error. -/
theorem basic_stats_empty (df : DataFrame)
    (hsales : SALES_COLUMN ∈ df.cols) (hempty : df.rows = []) :
    ∃ s : Stats, get_basic_stats df = Except.ok s ∧
      s.total_rows = 0 ∧ s.total_revenue = 0 ∧ s.avg_order_value = none := by
  unfold get_basic_stats
  rw [if_neg (not_not_intro hsales)]
  refine ⟨_, rfl, ?_, ?_, ?_⟩ <;> simp [hempty, qsum]

/-- **C5, witness**: the empty-table theorem applied to `emptySalesDF`. -/
theorem basic_stats_empty_witness :
    ∃ s : Stats, get_basic_stats emptySalesDF = Except.ok s ∧
      s.total_rows = 0 ∧ s.total_revenue = 0 ∧ s.avg_order_value = none :=
  basic_stats_empty emptySalesDF (by decide) rfl

/-! ## Claim C6 -/

set_option maxRecDepth 8000 in
/-- **C6**: the end-to-end scenario.  `"bad"` coerces to `0`, so the third
row's derived revenue is `0·20 = 0` and it is dropped, leaving 2 rows; the
monthly trends are exactly `[("2003-01", 3500)]` and the top products with
`n = 10` are exactly `[("Motorcycles", 3000), ("Classic Cars", 500)]`. -/
theorem end_to_end_scenario :
    toNumOrZero (Value.str ("bad")) = 0 ∧
    (clean_data rawC6).rows.length = 2 ∧
    (add_time_features (clean_data rawC6)).bind get_monthly_trends
      = Except.ok [(Value.str ("2003-01"), 3500)] ∧
    (add_time_features (clean_data rawC6)).bind (fun t => get_top_products t 10)
      = Except.ok [(Value.str ("Motorcycles"), 3000), (Value.str ("Classic Cars"), 500)] :=
  ⟨by decide, by decide, by rfl, by rfl⟩

/-! ## Claim C8 -/

/-- **C8**: `clean_data` is a total function (it raises nothing); quantity and
price cells of surviving rows are always numeric, with unparseable entries
degraded to `0` by `toNumOrZero` rather than dropped or nulled, and rows whose
date cell could not be parsed are dropped (surviving rows hold real dates). -/
theorem clean_total_degrade (df : DataFrame) :
    (QTY_COLUMN ∈ (trimCols df).cols →
      ∀ r ∈ (clean_data df).rows, ∃ q : ℚ, getVal r QTY_COLUMN = Value.num q) ∧
    (PRICE_COLUMN ∈ (trimCols df).cols →
      ∀ r ∈ (clean_data df).rows, ∃ p : ℚ, getVal r PRICE_COLUMN = Value.num p) ∧
    (DATE_COLUMN ∈ (trimCols df).cols →
      ∀ r ∈ (clean_data df).rows, ∃ d : DateYMD, getVal r DATE_COLUMN = Value.date d) ∧
    (∀ s : String, parseNum s = none → toNumOrZero (Value.str s) = 0) ∧
    toNumOrZero Value.null = 0 := by
  refine ⟨?_, ?_, ?_, ?_, rfl⟩
  · intro hq
    have h3 := coerceQty_num (show QTY_COLUMN ∈ (dropAllNull (trimCols df)).cols from hq)
    have h4 := colPred_coercePrice (fun v => ∃ q : ℚ, v = Value.num q) (show QTY_COLUMN ≠ PRICE_COLUMN by decide) h3
    have h5 := colPred_coerceDate (fun v => ∃ q : ℚ, v = Value.num q) (show QTY_COLUMN ≠ DATE_COLUMN by decide) h4
    have h6 := colPred_deriveSales (fun v => ∃ q : ℚ, v = Value.num q) (show QTY_COLUMN ≠ SALES_COLUMN by decide) h5
    have h7 := colPred_filterSales (fun v => ∃ q : ℚ, v = Value.num q) (show QTY_COLUMN ≠ SALES_COLUMN by decide) h6
    exact h7
  · intro hp
    have h4 := coercePrice_num
      (show PRICE_COLUMN ∈ (coerceQty (dropAllNull (trimCols df))).cols by
        rwa [cols_coerceQty, cols_dropAllNull])
    have h5 := colPred_coerceDate (fun v => ∃ p : ℚ, v = Value.num p) (show PRICE_COLUMN ≠ DATE_COLUMN by decide) h4
    have h6 := colPred_deriveSales (fun v => ∃ p : ℚ, v = Value.num p) (show PRICE_COLUMN ≠ SALES_COLUMN by decide) h5
    have h7 := colPred_filterSales (fun v => ∃ p : ℚ, v = Value.num p) (show PRICE_COLUMN ≠ SALES_COLUMN by decide) h6
    exact h7
  · intro hd
    have h5 := coerceDate_date
      (show DATE_COLUMN ∈ (coercePrice (coerceQty (dropAllNull (trimCols df)))).cols by
        rwa [cols_coercePrice, cols_coerceQty, cols_dropAllNull])
    have h6 := colPred_deriveSales (fun v => ∃ d : DateYMD, v = Value.date d) (show DATE_COLUMN ≠ SALES_COLUMN by decide) h5
    have h7 := colPred_filterSales (fun v => ∃ d : DateYMD, v = Value.date d) (show DATE_COLUMN ≠ SALES_COLUMN by decide) h6
    exact h7
  · intro s hnone
    simp [toNumOrZero, hnone]

/-- **C8, witness**: degradation facts at `qtyPriceDF`, whose quantity cell is
the textual `"30"`. -/
theorem clean_total_degrade_witness :
    ∃ q : ℚ, getVal qtyPriceRow QTY_COLUMN = Value.num q :=
  (clean_total_degrade qtyPriceDF).1 (by decide) qtyPriceRow (by decide)

/-! ## Grouping lemmas -/

theorem mem_dedupFirst {a : Value} : ∀ {l : List Value}, a ∈ dedupFirst l ↔ a ∈ l := by
  intro l
  induction l with
  | nil => simp [dedupFirst]
  | cons v l ih =>
    by_cases hav : a = v
    · simp [dedupFirst, hav]
    · simp [dedupFirst, List.mem_filter, ih, hav]

theorem nodup_dedupFirst : ∀ l : List Value, (dedupFirst l).Nodup
  | [] => List.nodup_nil
  | v :: l => by
    rw [dedupFirst]
    refine List.nodup_cons.2 ⟨?_, List.Nodup.filter _ (nodup_dedupFirst l)⟩
    intro hmem
    have hv := List.of_mem_filter hmem
    simp at hv

theorem mem_groupKeys {df : DataFrame} {c : String} {v : Value} :
    v ∈ groupKeys df c ↔ v ∈ colVals df c ∧ v ≠ Value.null := by
  simp [groupKeys, mem_dedupFirst, List.mem_filter]

theorem nodup_groupKeys (df : DataFrame) (c : String) : (groupKeys df c).Nodup :=
  nodup_dedupFirst _

/-- Unfolding of `groupSum` to the standard list sum. -/
theorem groupSum_eq_sum (df : DataFrame) (c : String) (k : Value) :
    groupSum df c k = ((df.rows.filter (fun r => getVal r c == k)).map
      (fun r => numOf (getVal r SALES_COLUMN))).sum := by
  unfold groupSum
  exact qsum_eq _

/-! ## Claim C3 -/

/-- **C3**: on a featured table (product and revenue columns present, `n ≥ 1`),
`get_top_products` succeeds with at most `n` entries, sorted non-increasing by
summed revenue; each entry's key is a product group of the table and its total
is the sum of the revenue of exactly the rows bearing that product value; and
when `n` is at least the number of distinct product groups, every group
appears. -/
theorem top_products_spec (df : DataFrame) (n : Nat)
    (hprod : PRODUCT_COLUMN ∈ df.cols) (hsales : SALES_COLUMN ∈ df.cols) (_hn : 1 ≤ n) :
    ∃ l : List (Value × ℚ), get_top_products df n = Except.ok l ∧
      l.length ≤ n ∧
      List.Sorted descBySnd l ∧
      (∀ e ∈ l, e.1 ∈ groupKeys df PRODUCT_COLUMN ∧
        e.2 = ((df.rows.filter (fun r => getVal r PRODUCT_COLUMN == e.1)).map
          (fun r => numOf (getVal r SALES_COLUMN))).sum) ∧
      ((groupKeys df PRODUCT_COLUMN).length ≤ n →
        ∀ k ∈ groupKeys df PRODUCT_COLUMN, k ∈ l.map Prod.fst) := by
  unfold get_top_products
  rw [if_neg (not_not_intro hprod), if_neg (not_not_intro hsales)]
  refine ⟨_, rfl, ?_, ?_, ?_, ?_⟩
  · rw [List.length_take]
    exact min_le_left _ _
  · exact (List.sorted_insertionSort descBySnd _).sublist (List.take_sublist _ _)
  · intro e he
    have he2 := (List.perm_insertionSort descBySnd _).subset (List.mem_of_mem_take he)
    obtain ⟨k, hk, rfl⟩ := List.mem_map.1 he2
    exact ⟨hk, groupSum_eq_sum df PRODUCT_COLUMN k⟩
  · intro hlen k hk
    have hmem := List.mem_map_of_mem (fun k => (k, groupSum df PRODUCT_COLUMN k)) hk
    have hsort := (List.perm_insertionSort descBySnd _).symm.subset hmem
    have hlen' : (List.insertionSort descBySnd
        ((groupKeys df PRODUCT_COLUMN).map
          (fun k => (k, groupSum df PRODUCT_COLUMN k)))).length ≤ n := by
      rw [(List.perm_insertionSort descBySnd _).length_eq, List.length_map]
      exact hlen
    rw [List.take_of_length_le hlen']
    exact List.mem_map_of_mem Prod.fst hsort

/-- **C3, witness**: the theorem applied to the one-row featured table. -/
theorem top_products_spec_witness :
    ∃ l : List (Value × ℚ), get_top_products featuredDF 10 = Except.ok l ∧
      l.length ≤ 10 ∧
      List.Sorted descBySnd l ∧
      (∀ e ∈ l, e.1 ∈ groupKeys featuredDF PRODUCT_COLUMN ∧
        e.2 = ((featuredDF.rows.filter (fun r => getVal r PRODUCT_COLUMN == e.1)).map
          (fun r => numOf (getVal r SALES_COLUMN))).sum) ∧
      ((groupKeys featuredDF PRODUCT_COLUMN).length ≤ 10 →
        ∀ k ∈ groupKeys featuredDF PRODUCT_COLUMN, k ∈ l.map Prod.fst) :=
  top_products_spec featuredDF 10 (by decide) (by decide) (by decide)

/-! ## Claim C4 -/

/-- **C4**: on a featured table (bucket and revenue columns present, buckets
being strings), `get_monthly_trends` succeeds with entries sorted ascending by
bucket string, pairwise-distinct buckets, one entry per distinct non-missing
bucket value of the table, and each entry's total is the sum of the revenue of
exactly the rows bearing that bucket value. -/
theorem monthly_trends_spec (df : DataFrame)
    (hb : YEARMONTH_COLUMN ∈ df.cols) (hsales : SALES_COLUMN ∈ df.cols)
    (hstr : ∀ r ∈ df.rows, ∃ s : String, getVal r YEARMONTH_COLUMN = Value.str s) :
    ∃ l : List (Value × ℚ), get_monthly_trends df = Except.ok l ∧
      List.Sorted ascByBucket l ∧
      (l.map (fun e => strOf e.1)).Nodup ∧
      (∀ v : Value, v ∈ l.map Prod.fst ↔ v ∈ colVals df YEARMONTH_COLUMN ∧ v ≠ Value.null) ∧
      (∀ e ∈ l, e.2 = ((df.rows.filter (fun r => getVal r YEARMONTH_COLUMN == e.1)).map
        (fun r => numOf (getVal r SALES_COLUMN))).sum) := by
  have hkeystr : ∀ v ∈ groupKeys df YEARMONTH_COLUMN, v = Value.str (strOf v) := by
    intro v hv
    obtain ⟨hcv, _⟩ := mem_groupKeys.1 hv
    obtain ⟨r, hr, hgv⟩ := List.mem_map.1 hcv
    obtain ⟨s, hs⟩ := hstr r hr
    rw [← hgv, hs]
    rfl
  unfold get_monthly_trends
  rw [if_neg (not_not_intro hb), if_neg (not_not_intro hsales)]
  refine ⟨_, rfl, ?_, ?_, ?_, ?_⟩
  · exact List.sorted_insertionSort ascByBucket _
  · have hperm := ((List.perm_insertionSort ascByBucket
      ((groupKeys df YEARMONTH_COLUMN).map
        (fun k => (k, groupSum df YEARMONTH_COLUMN k)))).map (fun e => strOf e.1))
    rw [hperm.nodup_iff, List.map_map]
    refine List.Nodup.map_on ?_ (nodup_groupKeys df YEARMONTH_COLUMN)
    intro x hx y hy hxy
    rw [hkeystr x hx, hkeystr y hy]
    simpa using hxy
  · intro v
    rw [List.Perm.mem_iff ((List.perm_insertionSort ascByBucket _).map Prod.fst),
      List.map_map]
    have hid : ((groupKeys df YEARMONTH_COLUMN).map
        (Prod.fst ∘ fun k => (k, groupSum df YEARMONTH_COLUMN k)))
        = groupKeys df YEARMONTH_COLUMN := List.map_id _
    rw [hid]
    exact mem_groupKeys
  · intro e he
    have he2 := (List.perm_insertionSort ascByBucket _).subset he
    obtain ⟨k, hk, rfl⟩ := List.mem_map.1 he2
    exact groupSum_eq_sum df YEARMONTH_COLUMN k

/-- **C4, witness**: the theorem applied to the one-row featured table. -/
theorem monthly_trends_spec_witness :
    ∃ l : List (Value × ℚ), get_monthly_trends featuredDF = Except.ok l ∧
      List.Sorted ascByBucket l ∧
      (l.map (fun e => strOf e.1)).Nodup ∧
      (∀ v : Value, v ∈ l.map Prod.fst ↔
        v ∈ colVals featuredDF YEARMONTH_COLUMN ∧ v ≠ Value.null) ∧
      (∀ e ∈ l, e.2 = ((featuredDF.rows.filter
          (fun r => getVal r YEARMONTH_COLUMN == e.1)).map
        (fun r => numOf (getVal r SALES_COLUMN))).sum) :=
  monthly_trends_spec featuredDF (by decide) (by decide)
    (by intro r hr; fin_cases hr; exact ⟨("2003-01"), rfl⟩)

/-! ## Claim C7 -/

/-- **C7**: on a clean table holding the date column with genuine date values,
`add_time_features` succeeds and every row's `YearMonth` bucket is exactly the
zero-padded concatenation `"{year:04d}-{month:02d}"` of the year and month of
that row's own date value. -/
theorem time_features_bucket (df : DataFrame)
    (hd : DATE_COLUMN ∈ df.cols)
    (hdate : ∀ r ∈ df.rows, ∃ d : DateYMD, getVal r DATE_COLUMN = Value.date d) :
    ∃ df' : DataFrame, add_time_features df = Except.ok df' ∧
      ∀ r ∈ df'.rows, ∃ d : DateYMD, getVal r DATE_COLUMN = Value.date d ∧
        getVal r YEARMONTH_COLUMN = Value.str (pad4 d.year ++ "-" ++ pad2 d.month) := by
  have hall : (df.rows.all (fun r => isDate (getVal r DATE_COLUMN))) = true := by
    rw [List.all_eq_true]
    intro r hr
    obtain ⟨d, hd'⟩ := hdate r hr
    rw [hd']
    rfl
  unfold add_time_features
  rw [if_neg (not_not_intro hd), hall]
  simp only [Bool.not_true, Bool.false_eq_true, if_false]
  refine ⟨_, rfl, ?_⟩
  intro r hr
  obtain ⟨r₀, hr₀, rfl⟩ := List.mem_map.1 hr
  obtain ⟨d, hd'⟩ := hdate r₀ hr₀
  refine ⟨d, ?_, ?_⟩
  · rw [getVal_setVal_ne _ _ (show DATE_COLUMN ≠ YEARMONTH_COLUMN by decide),
      getVal_setVal_ne _ _ (show DATE_COLUMN ≠ ("Month") by decide),
      getVal_setVal_ne _ _ (show DATE_COLUMN ≠ ("Year") by decide), hd']
  · rw [getVal_setVal_self, hd']
    rfl

/-- **C7, witness**: the theorem applied to the one-row featured table. -/
theorem time_features_bucket_witness :
    ∃ df' : DataFrame, add_time_features featuredDF = Except.ok df' ∧
      ∀ r ∈ df'.rows, ∃ d : DateYMD, getVal r DATE_COLUMN = Value.date d ∧
        getVal r YEARMONTH_COLUMN = Value.str (pad4 d.year ++ "-" ++ pad2 d.month) :=
  time_features_bucket featuredDF (by decide)
    (by intro r hr; fin_cases hr; exact ⟨⟨2003, 1, 6⟩, rfl⟩)

/-! ## Claim C9 -/

/-- When the revenue column cannot be established, cleaning leaves the column
set exactly as the trimmed input columns. -/
theorem cols_clean_no_sales (df : DataFrame)
    (_hs : SALES_COLUMN ∉ (trimCols df).cols)
    (hqp : QTY_COLUMN ∉ (trimCols df).cols ∨ PRICE_COLUMN ∉ (trimCols df).cols) :
    (clean_data df).cols = (trimCols df).cols := by
  have h5eq : (coerceDate (coercePrice (coerceQty (dropAllNull (trimCols df))))).cols
      = (trimCols df).cols := by
    rw [cols_coerceDate, cols_coercePrice, cols_coerceQty, cols_dropAllNull]
  unfold clean_data
  rw [cols_filterSales,
    cols_deriveSales_neg (by
      rintro ⟨h1, h2, h3⟩
      rw [h5eq] at h2 h3
      rcases hqp with h | h
      · exact h h2
      · exact h h3), h5eq]

/-- **C9**: if a raw table has no revenue column (after trimming) and is
missing quantity or price, cleaning cannot establish revenue — `clean_data`
still returns (it is a total function) — and then each of the three
aggregations fails with a missing-column error rather than proceeding. -/
theorem missing_revenue_fails (df : DataFrame) (n : Nat)
    (hs : SALES_COLUMN ∉ (trimCols df).cols)
    (hqp : QTY_COLUMN ∉ (trimCols df).cols ∨ PRICE_COLUMN ∉ (trimCols df).cols) :
    SALES_COLUMN ∉ (clean_data df).cols ∧
    (∃ e, get_top_products (clean_data df) n = Except.error e) ∧
    (∃ e, get_monthly_trends (clean_data df) = Except.error e) ∧
    (∃ e, get_basic_stats (clean_data df) = Except.error e) := by
  have hns : SALES_COLUMN ∉ (clean_data df).cols := by
    rw [cols_clean_no_sales df hs hqp]
    exact hs
  refine ⟨hns, ?_, ?_, ?_⟩
  · unfold get_top_products
    by_cases hp : PRODUCT_COLUMN ∉ (clean_data df).cols
    · rw [if_pos hp]
      exact ⟨_, rfl⟩
    · rw [if_neg hp, if_pos hns]
      exact ⟨_, rfl⟩
  · unfold get_monthly_trends
    by_cases hp : YEARMONTH_COLUMN ∉ (clean_data df).cols
    · rw [if_pos hp]
      exact ⟨_, rfl⟩
    · rw [if_neg hp, if_pos hns]
      exact ⟨_, rfl⟩
  · unfold get_basic_stats
    rw [if_pos hns]
    exact ⟨_, rfl⟩

/-- **C9, witness**: the theorem applied to a table with quantity but no price
and no revenue. -/
theorem missing_revenue_fails_witness :
    SALES_COLUMN ∉ (clean_data noPriceDF).cols ∧
    (∃ e, get_top_products (clean_data noPriceDF) 10 = Except.error e) ∧
    (∃ e, get_monthly_trends (clean_data noPriceDF) = Except.error e) ∧
    (∃ e, get_basic_stats (clean_data noPriceDF) = Except.error e) :=
  missing_revenue_fails noPriceDF 10 (by decide) (Or.inr (by decide))

/-! ## Claim C10 -/

/-- **C10**: the extension dispatch of `load_data` is case-insensitive — it
depends only on the lowercased path, `.csv` (in any letter case) selects the
CSV parser, `.xlsx`/`.xls` (in any letter case) select the spreadsheet parser,
and exactly the paths matching none of the three lowercased suffixes fail with
the unsupported-format error; in particular `"report.CSV"` and `"book.Xlsx"`
are accepted. -/
theorem load_dispatch_spec :
    (∀ p q : List Char, lowerStr p = lowerStr q → dispatchFormat p = dispatchFormat q) ∧
    (∀ p : List Char, dispatchFormat p = Except.ok LoadFormat.csv ↔
      csvExt.isSuffixOf (lowerStr p) = true) ∧
    (∀ p : List Char, dispatchFormat p = Except.ok LoadFormat.excel ↔
      (csvExt.isSuffixOf (lowerStr p) = false ∧
        (xlsxExt.isSuffixOf (lowerStr p) = true ∨ xlsExt.isSuffixOf (lowerStr p) = true))) ∧
    (∀ p : List Char, (∃ e, dispatchFormat p = Except.error e) ↔
      (csvExt.isSuffixOf (lowerStr p) = false ∧ xlsxExt.isSuffixOf (lowerStr p) = false ∧
        xlsExt.isSuffixOf (lowerStr p) = false)) ∧
    dispatchFormat (("report.CSV").data) = Except.ok LoadFormat.csv ∧
    dispatchFormat (("book.Xlsx").data) = Except.ok LoadFormat.excel ∧
    dispatchFormat (("notes.txt").data) = Except.error ("Only CSV or Excel files supported.") := by
  refine ⟨?_, ?_, ?_, ?_, rfl, rfl, rfl⟩
  · intro p q h
    unfold dispatchFormat
    rw [h]
  · intro p
    unfold dispatchFormat
    cases hc : csvExt.isSuffixOf (lowerStr p) <;>
      cases hx : xlsxExt.isSuffixOf (lowerStr p) <;>
      cases hs : xlsExt.isSuffixOf (lowerStr p) <;>
      simp_all
  · intro p
    unfold dispatchFormat
    cases hc : csvExt.isSuffixOf (lowerStr p) <;>
      cases hx : xlsxExt.isSuffixOf (lowerStr p) <;>
      cases hs : xlsExt.isSuffixOf (lowerStr p) <;>
      simp_all
  · intro p
    unfold dispatchFormat
    cases hc : csvExt.isSuffixOf (lowerStr p) <;>
      cases hx : xlsxExt.isSuffixOf (lowerStr p) <;>
      cases hs : xlsExt.isSuffixOf (lowerStr p) <;>
      simp_all

/-- **C10, witness**: case-insensitivity applied at a concrete pair of paths
differing only in letter case. -/
theorem load_dispatch_spec_witness :
    dispatchFormat (("A.CSV").data) = dispatchFormat (("a.csv").data) :=
  load_dispatch_spec.1 _ _ (by decide)

end SalesInsights
